import Mathlib

/-
Verification of the CasaDNS dynamic-DNS updater
(custom_components/casadns: __init__.py, config_flow.py, const.py, sensor.py).

The development shallowly embeds the two components the claims are about:

* the domain normalizer `_normalize_domains` of config_flow.py, modelled
  character-exactly over `List Char` with ASCII models of the Python string
  operations `split(",")`, `strip()`, `lower()`, `endswith`, slicing and
  `",".join`;

* the update engine `CasaDNSManager` of __init__.py: its constructor,
  `register_listener`, `async_update_dns` and `_async_call_casadns`.
  Network effects are passed in as explicit data: the discovery result
  `(ipv4, ipv6)` (each `Option String`, `none` standing for Python `None`),
  the outcome of the push HTTP call (`PushOutcome`), and the clock value used
  for `dt_util.utcnow()`.  The observable actions of one update cycle
  (state mutation, listener callbacks, the remote push) are returned as an
  ordered event trace, in the order the corresponding statements appear in
  the source.
-/

namespace CasaDNS

/-! ## Python string model (ASCII fragment) -/

/-- Python strings, modelled as lists of characters. -/
abbrev PyStr := List Char

/-- Whitespace characters stripped by Python `str.strip()` (ASCII fragment). -/
def py_isspace (c : Char) : Bool :=
  c = ' ' || c = '\t' || c = '\n' || c = '\r' || c = '\x0b' || c = '\x0c'

/-- Python `str.lstrip()`. -/
def py_lstrip (s : PyStr) : PyStr := s.dropWhile py_isspace

/-- Python `str.rstrip()`. -/
def py_rstrip (s : PyStr) : PyStr := (s.reverse.dropWhile py_isspace).reverse

/-- Python `str.strip()`. -/
def py_strip (s : PyStr) : PyStr := py_rstrip (py_lstrip s)

/-- Python `str.lower()` on one character (ASCII fragment). -/
def py_lower_char (c : Char) : Char :=
  if 'A' ≤ c && c ≤ 'Z' then Char.ofNat (c.toNat + 32) else c

/-- Python `str.lower()` (ASCII fragment). -/
def py_lower (s : PyStr) : PyStr := s.map py_lower_char

/-- Prepend characters to the first piece of a split result (the auxiliary
accumulator of the character-by-character split). -/
def prepend_head (p : PyStr) : List PyStr → List PyStr
  | [] => [p]
  | h :: t => (p ++ h) :: t

/-- Python `raw.split(",")`: splits at every comma, keeping empty pieces;
on the empty string it returns one empty piece. -/
def split_comma : PyStr → List PyStr
  | [] => [[]]
  | c :: rest =>
    if c = ',' then [] :: split_comma rest
    else prepend_head [c] (split_comma rest)

/-- Python `",".join(parts)`. -/
def join_comma : List PyStr → PyStr
  | [] => []
  | [s] => s
  | s :: t => s ++ ',' :: join_comma t

/-! ## Domain normalizer (config_flow.py, `_normalize_domains`) -/

/-- The suffix `".casadns.eu"` stripped by the normalizer. -/
def casadns_suffix : PyStr := ".casadns.eu".toList

/-- One iteration of the loop body of `_normalize_domains` (config_flow.py
lines 24-35): strip and lowercase the item, skip it when empty, strip a
trailing `".casadns.eu"`, and keep the result when still non-empty. -/
def normalize_item (item : PyStr) : Option PyStr :=
  let label := py_lower (py_strip item)
  if label = [] then none
  else
    let label2 :=
      if casadns_suffix.isSuffixOf label then
        label.take (label.length - casadns_suffix.length)
      else label
    if label2 = [] then none else some label2

/-- The normalizer `_normalize_domains` of config_flow.py: split on commas,
normalize each item, drop the rejected ones, and join with commas. -/
def normalize_domains (raw : PyStr) : PyStr :=
  join_comma ((split_comma raw).filterMap normalize_item)

/-! ## Update engine (init module, `CasaDNSManager`) -/

/-- The state of a `CasaDNSManager` instance: the immutable configuration
read in `__init__` plus the mutable fields `_last_ip`, `_last_ipv4`,
`_last_ipv6`, `_last_status`, `_last_error`, `_last_updated` and
`_listeners`.  Listener callbacks are identified by `Nat` handles;
timestamps are abstracted to `Nat`. -/
structure CasaDNSManager where
  domains : String
  token : String
  interval_minutes : Nat
  last_ip : Option String
  last_ipv4 : Option String
  last_ipv6 : Option String
  last_status : Option Nat
  last_error : Option String
  last_updated : Option Nat
  listeners : List Nat
  deriving Repr, DecidableEq

/-- The constructor `CasaDNSManager.__init__`: configuration stored, every
mutable field `None`, no listeners. -/
def init_manager (domains token : String) (interval_minutes : Nat) : CasaDNSManager :=
  { domains := domains
    token := token
    interval_minutes := interval_minutes
    last_ip := none
    last_ipv4 := none
    last_ipv6 := none
    last_status := none
    last_error := none
    last_updated := none
    listeners := [] }

/-- `register_listener`: append the callback handle to the listener list. -/
def register_listener (s : CasaDNSManager) (id : Nat) : CasaDNSManager :=
  { s with listeners := s.listeners ++ [id] }

/-- Python truthiness of an optional string: `None` and the empty string are
falsy, every other string is truthy. -/
def truthy : Option String → Bool
  | none => false
  | some s => !(s == "")

/-- Python `a or b` on optional strings: `a` when truthy, else `b`. -/
def py_or (a b : Option String) : Option String :=
  if truthy a then a else b

/-- Outcome of the push HTTP request in `_async_call_casadns`: either the
request completed with an HTTP status and body text, or it raised a
transport error (`ClientError` or `asyncio.TimeoutError`) whose message is
recorded. -/
inductive PushOutcome where
  | completed (status : Nat) (text : String)
  | transport_error (msg : String)
  deriving Repr, DecidableEq

/-- Observable actions of one update cycle, in program order:
the assignment of the `_last_ipv4` / `_last_ipv6` / `_last_ip` fields,
each listener callback (with whether it returned normally), and the
push call with its `(ipv4, ipv6)` arguments. -/
inductive Event where
  | state_updated (ipv4 ipv6 primary : Option String)
  | listener_called (id : Nat) (ok : Bool)
  | pushed (ipv4 ipv6 : Option String)
  deriving Repr, DecidableEq

/-- Query parameters of the push request URL built in `_async_call_casadns`
(init module lines 198-223), as key and value pairs in the order they
appear in the URL: `domains` and `token` from the base string, then
`clear=true`, then `ip` chosen by truthiness of `ipv4` else `ipv6`, then
`ipv6` whenever `ipv6` is truthy (the source spells the `ipv6` branch as
two cases that append the same parameter). -/
def build_casadns_query (domains token : String) (ipv4 ipv6 : Option String) :
    List (String × String) :=
  [("domains", domains), ("token", token)] ++
    (([("clear", "true")] ++
      (if truthy ipv4 then [("ip", ipv4.getD "")]
       else if truthy ipv6 then [("ip", ipv6.getD "")]
       else [])) ++
      (if truthy ipv6 && truthy ipv4 then [("ipv6", ipv6.getD "")]
       else if truthy ipv6 && !truthy ipv4 then [("ipv6", ipv6.getD "")]
       else []))

/-- State effect of `_async_call_casadns` (init module lines 225-251):
when the request completes (any HTTP status), `_last_status` is set to the
status, `_last_updated` to the current time and `_last_error` to `None`;
when it raises a transport error, only `_last_error` is set to the message.
The model is total: the Python handler catches `ClientError` and
`TimeoutError`, so nothing propagates to the caller. -/
def async_call_casadns (s : CasaDNSManager) (outcome : PushOutcome) (now : Nat) :
    CasaDNSManager :=
  match outcome with
  | .completed status _text =>
    { s with last_status := some status, last_updated := some now, last_error := none }
  | .transport_error msg =>
    { s with last_error := some msg }

/-- The update cycle `async_update_dns` (init module lines 109-155).
Discovery already happened: its result is the pair `(ipv4, ipv6)`.
`beh id` tells whether listener `id` returns normally (`false` means it
raises; the source catches the exception and continues).  `outcome` and
`now` parametrise the push call.  Returns the new state and the ordered
trace of observable events; the skip paths return the state unchanged with
an empty trace.  The local `current_primary = ipv4 or ipv6` of the source
is inlined as `py_or ipv4 ipv6`, and the listener snapshot
`list(self._listeners)` is the unchanged `s.listeners`. -/
def async_update_dns (s : CasaDNSManager) (force : Bool)
    (ipv4 ipv6 : Option String) (beh : Nat → Bool)
    (outcome : PushOutcome) (now : Nat) : CasaDNSManager × List Event :=
  if ipv4 = none ∧ ipv6 = none then
    (s, [])
  else if force = false ∧ s.last_ipv4 = ipv4 ∧ s.last_ipv6 = ipv6 then
    (s, [])
  else
    (async_call_casadns
        { s with last_ipv4 := ipv4, last_ipv6 := ipv6, last_ip := py_or ipv4 ipv6 }
        outcome now,
      Event.state_updated ipv4 ipv6 (py_or ipv4 ipv6) ::
        (s.listeners.map (fun id => Event.listener_called id (beh id)) ++
          [Event.pushed ipv4 ipv6]))

/-- Recognizer for push events. -/
def is_pushed : Event → Bool
  | .pushed _ _ => true
  | _ => false

/-- Number of push calls recorded in a trace. -/
def push_count (tr : List Event) : Nat :=
  (tr.filter is_pushed).length

/-- Query strings contain a parameter with the given key. -/
def has_param (q : List (String × String)) (k : String) : Prop :=
  k ∈ q.map Prod.fst

/-- A label that the normalizer maps to itself unchanged: non-empty,
comma-free, already stripped, already lowercase, and without the
`".casadns.eu"` suffix. -/
def canonical_label (l : PyStr) : Prop :=
  l ≠ [] ∧ ',' ∉ l ∧ py_strip l = l ∧ py_lower l = l ∧
    casadns_suffix.isSuffixOf l = false

instance (l : PyStr) : Decidable (canonical_label l) := by
  unfold canonical_label
  exact inferInstance

/-- States reachable from a freshly constructed engine through the public
operations.  `async_start` is covered by the `update` step with
`force = true` (its timer registration does not touch these fields), and
`async_stop` only clears the timer handle, leaving this state unchanged. -/
inductive Reachable : CasaDNSManager → Prop where
  | init (domains token : String) (interval_minutes : Nat) :
      Reachable (init_manager domains token interval_minutes)
  | register (s : CasaDNSManager) (id : Nat) :
      Reachable s → Reachable (register_listener s id)
  | update (s : CasaDNSManager) (force : Bool) (ipv4 ipv6 : Option String)
      (beh : Nat → Bool) (outcome : PushOutcome) (now : Nat) :
      Reachable s → Reachable (async_update_dns s force ipv4 ipv6 beh outcome now).1

/-! ## Lemmas about the normalizer -/

theorem split_comma_ne_nil (s : PyStr) : split_comma s ≠ [] := by
  cases s with
  | nil => simp [split_comma]
  | cons c rest =>
    simp only [split_comma]
    split
    · simp
    · cases split_comma rest <;> simp [prepend_head]

theorem prepend_head_prepend (p q : PyStr) (L : List PyStr) :
    prepend_head p (prepend_head q L) = prepend_head (p ++ q) L := by
  cases L <;> simp [prepend_head]

theorem split_comma_append (p s : PyStr) (hp : ',' ∉ p) :
    split_comma (p ++ s) = prepend_head p (split_comma s) := by
  induction p with
  | nil =>
    cases h : split_comma s with
    | nil => exact absurd h (split_comma_ne_nil s)
    | cons a t =>
      rw [List.nil_append, h]
      simp [prepend_head]
  | cons c p ih =>
    have hc : c ≠ ',' := by
      intro e
      exact hp (e ▸ List.mem_cons_self c p)
    have hp2 : ',' ∉ p := fun m => hp (List.mem_cons_of_mem c m)
    rw [List.cons_append]
    simp only [split_comma]
    rw [if_neg hc, ih hp2, prepend_head_prepend]
    rfl

theorem split_comma_join_comma (parts : List PyStr) (hne : parts ≠ [])
    (h : ∀ p ∈ parts, ',' ∉ p) :
    split_comma (join_comma parts) = parts := by
  induction parts with
  | nil => exact absurd rfl hne
  | cons p rest ih =>
    cases rest with
    | nil =>
      have h2 := split_comma_append p [] (h p (List.mem_cons_self p []))
      rw [List.append_nil] at h2
      show split_comma (join_comma [p]) = [p]
      rw [show join_comma [p] = p from rfl, h2]
      simp [split_comma, prepend_head]
    | cons q rest2 =>
      show split_comma (join_comma (p :: q :: rest2)) = p :: q :: rest2
      rw [show join_comma (p :: q :: rest2) = p ++ ',' :: join_comma (q :: rest2) from rfl]
      rw [split_comma_append p _ (h p (List.mem_cons_self p _))]
      have e : split_comma (',' :: join_comma (q :: rest2))
          = [] :: split_comma (join_comma (q :: rest2)) := by
        simp [split_comma]
      rw [e, ih (by simp) (fun x hx => h x (List.mem_cons_of_mem p hx))]
      simp [prepend_head]

theorem filterMap_eq_self_of (l : List PyStr) (f : PyStr → Option PyStr)
    (h : ∀ a ∈ l, f a = some a) : l.filterMap f = l := by
  induction l with
  | nil => rfl
  | cons a t ih =>
    rw [List.filterMap_cons, h a (List.mem_cons_self a t),
      ih (fun x hx => h x (List.mem_cons_of_mem a hx))]

theorem normalize_item_of_canonical (l : PyStr) (h : canonical_label l) :
    normalize_item l = some l := by
  obtain ⟨h1, _h2, h3, h4, h5⟩ := h
  simp [normalize_item, h1, h3, h4, h5]

theorem normalize_domains_idem_of_canonical (raw : PyStr)
    (h : ∀ l ∈ (split_comma raw).filterMap normalize_item, canonical_label l) :
    normalize_domains (normalize_domains raw) = normalize_domains raw := by
  by_cases hL : (split_comma raw).filterMap normalize_item = []
  · have hraw : normalize_domains raw = [] := by
      rw [normalize_domains, hL]
      rfl
    rw [hraw]
    rfl
  · show join_comma ((split_comma
        (join_comma ((split_comma raw).filterMap normalize_item))).filterMap
          normalize_item)
      = join_comma ((split_comma raw).filterMap normalize_item)
    rw [split_comma_join_comma _ hL (fun p hp => (h p hp).2.1),
      filterMap_eq_self_of _ _ (fun a ha => normalize_item_of_canonical a (h a ha))]

/-! ## Lemmas about the update engine -/

theorem filter_is_pushed_notify (l : List Nat) (beh : Nat → Bool) :
    (l.map (fun id => Event.listener_called id (beh id))).filter is_pushed = [] := by
  induction l with
  | nil => rfl
  | cons a t ih => simp [is_pushed, ih]

theorem push_count_proceed (ipv4 ipv6 primary : Option String) (l : List Nat)
    (beh : Nat → Bool) :
    push_count (Event.state_updated ipv4 ipv6 primary ::
      (l.map (fun id => Event.listener_called id (beh id)) ++
        [Event.pushed ipv4 ipv6])) = 1 := by
  simp [push_count, List.filter_append, is_pushed, filter_is_pushed_notify l beh]

theorem update_push_count (s : CasaDNSManager) (force : Bool)
    (ipv4 ipv6 : Option String) (beh : Nat → Bool) (o : PushOutcome) (n : Nat)
    (h : ¬(ipv4 = none ∧ ipv6 = none)) :
    push_count (async_update_dns s force ipv4 ipv6 beh o n).2 =
      if force = true ∨ ¬(s.last_ipv4 = ipv4 ∧ s.last_ipv6 = ipv6) then 1 else 0 := by
  simp only [async_update_dns]
  rw [if_neg h]
  by_cases hc : force = false ∧ s.last_ipv4 = ipv4 ∧ s.last_ipv6 = ipv6
  · rw [if_pos hc]
    have hcond : ¬(force = true ∨ ¬(s.last_ipv4 = ipv4 ∧ s.last_ipv6 = ipv6)) := by
      rintro (h1 | h2)
      · rw [hc.1] at h1
        exact Bool.false_ne_true h1
      · exact h2 hc.2
    rw [if_neg hcond]
    rfl
  · rw [if_neg hc]
    have hcond : force = true ∨ ¬(s.last_ipv4 = ipv4 ∧ s.last_ipv6 = ipv6) := by
      cases force with
      | true => exact Or.inl rfl
      | false => exact Or.inr (fun he => hc ⟨rfl, he⟩)
    rw [if_pos hcond]
    exact push_count_proceed ipv4 ipv6 (py_or ipv4 ipv6) s.listeners beh

theorem update_last_ips (s : CasaDNSManager) (force : Bool)
    (ipv4 ipv6 : Option String) (beh : Nat → Bool) (o : PushOutcome) (n : Nat)
    (h : ¬(ipv4 = none ∧ ipv6 = none)) :
    (async_update_dns s force ipv4 ipv6 beh o n).1.last_ipv4 = ipv4 ∧
    (async_update_dns s force ipv4 ipv6 beh o n).1.last_ipv6 = ipv6 := by
  simp only [async_update_dns]
  rw [if_neg h]
  by_cases hc : force = false ∧ s.last_ipv4 = ipv4 ∧ s.last_ipv6 = ipv6
  · rw [if_pos hc]
    exact ⟨hc.2.1, hc.2.2⟩
  · rw [if_neg hc]
    cases o <;> simp [async_call_casadns]

/-! ## Claims -/

/-- C1 (amended): in every update cycle where discovery returned at least one
address, the push call happens exactly once if `force` is true or the
discovered pair differs from the stored pair, and not at all otherwise; two
successive `update(force := false)` calls with identical discovery results
produce at most one push in total, exactly one precisely when the discovery
differs from the pair stored before the first call; `update(force := true)`
always produces exactly one push. -/
theorem C1_push_iff_amended (s : CasaDNSManager) (force : Bool)
    (ipv4 ipv6 : Option String) (beh : Nat → Bool) (o1 o2 : PushOutcome) (n1 n2 : Nat)
    (h : ¬(ipv4 = none ∧ ipv6 = none)) :
    (push_count (async_update_dns s force ipv4 ipv6 beh o1 n1).2 =
      if force = true ∨ ¬(s.last_ipv4 = ipv4 ∧ s.last_ipv6 = ipv6) then 1 else 0)
    ∧ (push_count (async_update_dns s false ipv4 ipv6 beh o1 n1).2 +
        push_count (async_update_dns (async_update_dns s false ipv4 ipv6 beh o1 n1).1
          false ipv4 ipv6 beh o2 n2).2 =
        if s.last_ipv4 = ipv4 ∧ s.last_ipv6 = ipv6 then 0 else 1)
    ∧ push_count (async_update_dns s true ipv4 ipv6 beh o1 n1).2 = 1 := by
  refine ⟨update_push_count s force ipv4 ipv6 beh o1 n1 h, ?_, ?_⟩
  · have h1 := update_push_count s false ipv4 ipv6 beh o1 n1 h
    have hlast := update_last_ips s false ipv4 ipv6 beh o1 n1 h
    have h2 := update_push_count (async_update_dns s false ipv4 ipv6 beh o1 n1).1
      false ipv4 ipv6 beh o2 n2 h
    rw [hlast.1, hlast.2] at h2
    simp only [not_true, and_self, or_false, not_true_eq_false] at h2
    rw [h1, h2]
    by_cases heq : s.last_ipv4 = ipv4 ∧ s.last_ipv6 = ipv6 <;> simp [heq]
  · have h3 := update_push_count s true ipv4 ipv6 beh o1 n1 h
    simpa using h3

/-- C1 witness: a forced update from the fresh engine performs exactly one
push. -/
theorem C1_witness :
    push_count (async_update_dns (init_manager "d" "t" 15) true (some "1.2.3.4") none
      (fun _ => true) (PushOutcome.completed 200 "OK") 0).2 = 1 :=
  (C1_push_iff_amended (init_manager "d" "t" 15) true (some "1.2.3.4") none
    (fun _ => true) (PushOutcome.completed 200 "OK") (PushOutcome.completed 200 "OK")
    0 0 (by decide)).2.2

/-- C1 is refuted as stated: after the forced startup update has stored
`1.2.3.4`, two successive `update(force := false)` calls that both discover
the identical pair `(some 1.2.3.4, none)` perform zero pushes in total, not
exactly one: both calls take the unchanged-IP skip path. -/
theorem C1_counterexample :
    push_count (async_update_dns
        (async_update_dns (init_manager "d" "t" 15) true (some "1.2.3.4") none
          (fun _ => true) (PushOutcome.completed 200 "OK") 0).1
        false (some "1.2.3.4") none (fun _ => true)
          (PushOutcome.completed 200 "OK") 1).2 +
      push_count (async_update_dns
        (async_update_dns
          (async_update_dns (init_manager "d" "t" 15) true (some "1.2.3.4") none
            (fun _ => true) (PushOutcome.completed 200 "OK") 0).1
          false (some "1.2.3.4") none (fun _ => true)
            (PushOutcome.completed 200 "OK") 1).1
        false (some "1.2.3.4") none (fun _ => true)
          (PushOutcome.completed 200 "OK") 2).2 ≠ 1 := by
  decide

/-- C2: when discovery returns both addresses absent, the update cycle
returns with the whole state (every field, including `last_ipv4`,
`last_ipv6`, `last_ip`, `last_status`, `last_error`, `last_updated`)
unchanged and an empty event trace, so no listener is notified and no push
occurs, for any value of `force`. -/
theorem C2_total_discovery_failure (s : CasaDNSManager) (force : Bool)
    (beh : Nat → Bool) (o : PushOutcome) (n : Nat) :
    async_update_dns s force none none beh o n = (s, []) := by
  simp [async_update_dns]

/-- C4: in every cycle that passes the guard and the skip check, the trace
is: the state mutation (with `last_ipv4`, `last_ipv6` and the primary set
to the new values) first, then every registered listener in registration
order, each recorded with whether it returned normally (a raising listener
is caught: later listeners still appear and the push still follows), then
exactly one push with the new pair.  The resulting state carries the new
addresses. -/
theorem C4_update_order (s : CasaDNSManager) (force : Bool)
    (ipv4 ipv6 : Option String) (beh : Nat → Bool) (o : PushOutcome) (n : Nat)
    (h : ¬(ipv4 = none ∧ ipv6 = none))
    (hgo : force = true ∨ ¬(s.last_ipv4 = ipv4 ∧ s.last_ipv6 = ipv6)) :
    (async_update_dns s force ipv4 ipv6 beh o n).2 =
      Event.state_updated ipv4 ipv6 (py_or ipv4 ipv6) ::
        (s.listeners.map (fun id => Event.listener_called id (beh id)) ++
          [Event.pushed ipv4 ipv6]) ∧
    (async_update_dns s force ipv4 ipv6 beh o n).1.last_ipv4 = ipv4 ∧
    (async_update_dns s force ipv4 ipv6 beh o n).1.last_ipv6 = ipv6 ∧
    (async_update_dns s force ipv4 ipv6 beh o n).1.last_ip = py_or ipv4 ipv6 := by
  have hc : ¬(force = false ∧ s.last_ipv4 = ipv4 ∧ s.last_ipv6 = ipv6) := by
    rcases hgo with h1 | h2
    · intro hhc
      rw [h1] at hhc
      exact Bool.false_ne_true hhc.1.symm
    · intro hhc
      exact h2 hhc.2
  simp only [async_update_dns]
  rw [if_neg h, if_neg hc]
  refine ⟨rfl, ?_, ?_, ?_⟩ <;> cases o <;> simp [async_call_casadns]

/-- C4 witness: a forced update on a fresh engine with two registered
listeners, the first of which raises, still calls both listeners in
registration order and then pushes. -/
theorem C4_witness :
    (async_update_dns (register_listener (register_listener (init_manager "d" "t" 15) 0) 1)
        true (some "9.9.9.9") none (fun id => id != 0)
        (PushOutcome.completed 200 "OK") 0).2 =
      Event.state_updated (some "9.9.9.9") none (some "9.9.9.9") ::
        ([Event.listener_called 0 false, Event.listener_called 1 true] ++
          [Event.pushed (some "9.9.9.9") none]) :=
  (C4_update_order (register_listener (register_listener (init_manager "d" "t" 15) 0) 1)
    true (some "9.9.9.9") none (fun id => id != 0)
    (PushOutcome.completed 200 "OK") 0 (by decide) (Or.inl rfl)).1

/-- C6 (amended): `last_updated` is set to the current UTC time on every push
attempt that completes with an HTTP response, whatever the status; on a
transport failure (timeout or connection error) it is left unchanged. -/
theorem C6_last_updated_amended (s : CasaDNSManager) (status : Nat)
    (text msg : String) (now : Nat) :
    (async_call_casadns s (PushOutcome.completed status text) now).last_updated = some now ∧
    (async_call_casadns s (PushOutcome.transport_error msg) now).last_updated =
      s.last_updated :=
  ⟨rfl, rfl⟩

/-- C6 is refuted as stated: a forced update whose push attempt fails with a
transport error at time 7 leaves `last_updated` at `None` instead of setting
it to the attempt time, because the source assigns `_last_updated` only
inside the response branch, not in the exception handler. -/
theorem C6_counterexample :
    (async_update_dns (init_manager "d" "t" 15) true (some "1.2.3.4") none
      (fun _ => true) (PushOutcome.transport_error "Connection timeout") 7).1.last_updated
      ≠ some 7 := by
  decide

/-- C7: on a transport-level failure of the push call, `last_error` is set to
the failure message and `last_status` is not modified (the model is total,
mirroring that the source catches `ClientError` and `TimeoutError`, so
nothing propagates); on a completed call of any HTTP status, `last_error` is
set to `None`, never to an error message. -/
theorem C7_transport_failure_fields (s : CasaDNSManager) (status : Nat)
    (text msg : String) (now : Nat) :
    (async_call_casadns s (PushOutcome.transport_error msg) now).last_error = some msg ∧
    (async_call_casadns s (PushOutcome.transport_error msg) now).last_status =
      s.last_status ∧
    (async_call_casadns s (PushOutcome.completed status text) now).last_error = none :=
  ⟨rfl, rfl, rfl⟩

/-- C3 (amended): every push query contains `domains`, `token` and
`clear=true`; it contains `ip` set to `ipv4` when `ipv4` is non-empty, else
set to `ipv6` when `ipv6` is non-empty (the source tests Python truthiness,
so an empty string counts as absent here); and it contains an `ipv6`
parameter exactly when `ipv6` is non-empty, whether or not `ipv4` is.  In
particular, with `ipv4 = "1.2.3.4"` and `ipv6 = "::1"` it includes
`ip=1.2.3.4`, `ipv6=::1` and `clear=true`; with `ipv4` absent and
`ipv6 = "::1"` it includes `ip=::1` and `ipv6=::1`. -/
theorem C3_query_params_amended (d t : String) (ipv4 ipv6 : Option String) :
    ("domains", d) ∈ build_casadns_query d t ipv4 ipv6 ∧
    ("token", t) ∈ build_casadns_query d t ipv4 ipv6 ∧
    ("clear", "true") ∈ build_casadns_query d t ipv4 ipv6 ∧
    (truthy ipv4 = true → ("ip", ipv4.getD "") ∈ build_casadns_query d t ipv4 ipv6) ∧
    (truthy ipv4 = false → truthy ipv6 = true →
      ("ip", ipv6.getD "") ∈ build_casadns_query d t ipv4 ipv6) ∧
    (has_param (build_casadns_query d t ipv4 ipv6) "ipv6" ↔ truthy ipv6 = true) ∧
    ("ip", "1.2.3.4") ∈ build_casadns_query d t (some "1.2.3.4") (some "::1") ∧
    ("ipv6", "::1") ∈ build_casadns_query d t (some "1.2.3.4") (some "::1") ∧
    ("clear", "true") ∈ build_casadns_query d t (some "1.2.3.4") (some "::1") ∧
    ("ip", "::1") ∈ build_casadns_query d t none (some "::1") ∧
    ("ipv6", "::1") ∈ build_casadns_query d t none (some "::1") := by
  refine ⟨?_, ?_, ?_, ?_, ?_, ?_, ?_, ?_, ?_, ?_, ?_⟩
  · simp [build_casadns_query]
  · simp [build_casadns_query]
  · simp [build_casadns_query]
  · intro h4
    cases h6 : truthy ipv6 <;> simp [build_casadns_query, h4, h6]
  · intro h4 h6
    simp [build_casadns_query, h4, h6]
  · cases h4 : truthy ipv4 <;> cases h6 : truthy ipv6 <;>
      simp +decide [has_param, build_casadns_query, h4, h6]
  · simp +decide [build_casadns_query, truthy]
  · simp +decide [build_casadns_query, truthy]
  · simp [build_casadns_query]
  · simp +decide [build_casadns_query, truthy]
  · simp +decide [build_casadns_query, truthy]

/-- C3 witness: with both addresses non-empty the query carries the IPv4 in
`ip` and has an `ipv6` parameter. -/
theorem C3_witness :
    ("ip", "1.2.3.4") ∈ build_casadns_query "home" "tok" (some "1.2.3.4") (some "::1") ∧
    (has_param (build_casadns_query "home" "tok" (some "1.2.3.4") (some "::1")) "ipv6" ↔
      truthy (some "::1") = true) :=
  ⟨(C3_query_params_amended "home" "tok" (some "1.2.3.4") (some "::1")).2.2.2.1 (by decide),
   (C3_query_params_amended "home" "tok" (some "1.2.3.4") (some "::1")).2.2.2.2.2.1⟩

/-- C3 is refuted as stated: with `ipv4` present but equal to the empty
string (so `isSome`, yet Python-falsy) and `ipv6 = "::1"`, the claim
requires the query to carry `ip` set to that `ipv4`, i.e. the pair
`(ip, empty)`; the code instead falls through to the IPv6 branch, so that
pair is absent. -/
theorem C3_counterexample :
    (some "" : Option String).isSome = true ∧
    ("ip", "") ∉ build_casadns_query "d" "t" (some "") (some "::1") := by
  refine ⟨rfl, ?_⟩
  decide

/-- C5 (amended): domain normalization is idempotent on every input whose
normalized labels are canonical, that is non-empty, comma-free, already
stripped, already lowercase and not ending in `".casadns.eu"`; it is not
idempotent in general, because stripping one `".casadns.eu"` suffix can
re-expose another (see the counterexample).  The example input
`" Home.casadns.eu , SERVER ,,office "` normalizes to
`"home,server,office"`. -/
theorem C5_normalize_amended :
    (∀ raw : PyStr,
        (∀ l ∈ (split_comma raw).filterMap normalize_item, canonical_label l) →
        normalize_domains (normalize_domains raw) = normalize_domains raw)
    ∧ normalize_domains (" Home.casadns.eu , SERVER ,,office ").toList
        = ("home,server,office").toList :=
  ⟨normalize_domains_idem_of_canonical, by decide⟩

/-- C5 witness: the example output itself satisfies the canonicity
hypothesis, so normalizing it again changes nothing. -/
theorem C5_witness :
    normalize_domains (normalize_domains ("home,server,office").toList)
      = normalize_domains ("home,server,office").toList :=
  C5_normalize_amended.1 (("home,server,office").toList) (by decide)

/-- C5 is refuted as stated: normalize is not idempotent on
`"a.casadns.eu.casadns.eu"`.  One application strips only the outer suffix,
giving `"a.casadns.eu"`; a second application strips again, giving `"a"`. -/
theorem C5_counterexample :
    normalize_domains (normalize_domains ("a.casadns.eu.casadns.eu").toList)
      ≠ normalize_domains ("a.casadns.eu.casadns.eu").toList := by
  decide

/-- C8 (amended): every reachable state satisfies the invariant with
Python-truthiness in place of presence: `last_ip` equals `last_ipv4` when
the latter is a non-empty string, else `last_ipv6` (this is the source
expression `ipv4 or ipv6`); and the freshly constructed engine has all
three fields absent. -/
theorem C8_primary_invariant_amended :
    (∀ s : CasaDNSManager, Reachable s → s.last_ip = py_or s.last_ipv4 s.last_ipv6) ∧
    (∀ (d t : String) (i : Nat),
      (init_manager d t i).last_ip = none ∧
      (init_manager d t i).last_ipv4 = none ∧
      (init_manager d t i).last_ipv6 = none) := by
  constructor
  · intro s hs
    induction hs with
    | init d t i => rfl
    | register s id _ ih => simpa [register_listener] using ih
    | update s force ipv4 ipv6 beh o n _ ih =>
      simp only [async_update_dns]
      by_cases h : ipv4 = none ∧ ipv6 = none
      · rw [if_pos h]
        exact ih
      · rw [if_neg h]
        by_cases hc : force = false ∧ s.last_ipv4 = ipv4 ∧ s.last_ipv6 = ipv6
        · rw [if_pos hc]
          exact ih
        · rw [if_neg hc]
          cases o <;> simp [async_call_casadns]
  · intro d t i
    exact ⟨rfl, rfl, rfl⟩

/-- C8 witness: the invariant holds at the freshly constructed engine. -/
theorem C8_witness :
    (init_manager "d" "t" 15).last_ip =
      py_or (init_manager "d" "t" 15).last_ipv4 (init_manager "d" "t" 15).last_ipv6 :=
  C8_primary_invariant_amended.1 (init_manager "d" "t" 15) (Reachable.init "d" "t" 15)

/-- C8 is refuted as stated: the state reached by one forced update whose
discovery returned the empty IPv4 string and an IPv6 address has
`last_ipv4` present (`isSome`), yet `last_ip` is not that IPv4: the source
computes the primary with Python truthiness (`ipv4 or ipv6`), not with
presence, so the claimed invariant fails in a reachable state. -/
theorem C8_counterexample :
    Reachable (async_update_dns (init_manager "d" "t" 15) true (some "") (some "::1")
      (fun _ => true) (PushOutcome.completed 200 "OK") 0).1 ∧
    (async_update_dns (init_manager "d" "t" 15) true (some "") (some "::1")
      (fun _ => true) (PushOutcome.completed 200 "OK") 0).1.last_ipv4.isSome = true ∧
    (async_update_dns (init_manager "d" "t" 15) true (some "") (some "::1")
      (fun _ => true) (PushOutcome.completed 200 "OK") 0).1.last_ip ≠
      (async_update_dns (init_manager "d" "t" 15) true (some "") (some "::1")
        (fun _ => true) (PushOutcome.completed 200 "OK") 0).1.last_ipv4 :=
  ⟨Reachable.update _ _ _ _ _ _ _ (Reachable.init "d" "t" 15), by decide, by decide⟩

/-- C10: when discovery returns the empty string for IPv4 and no IPv6, the
guard (which tests for `None`, not emptiness) does not treat this as a total
failure: the cycle proceeds, stores `last_ipv4 = ""` and a `None` primary,
and pushes; and the query built for that push contains neither an `ip` nor
an `ipv6` parameter, because parameter inclusion tests string truthiness. -/
theorem C10_empty_string_discovery (d t : String) (beh : Nat → Bool)
    (o : PushOutcome) (n : Nat) :
    (async_update_dns (init_manager d t 15) false (some "") none beh o n).2 =
      [Event.state_updated (some "") none none, Event.pushed (some "") none] ∧
    (async_update_dns (init_manager d t 15) false (some "") none beh o n).1.last_ipv4
      = some "" ∧
    (async_update_dns (init_manager d t 15) false (some "") none beh o n).1.last_ip
      = none ∧
    ¬ has_param (build_casadns_query d t (some "") none) "ip" ∧
    ¬ has_param (build_casadns_query d t (some "") none) "ipv6" := by
  refine ⟨?_, ?_, ?_, ?_, ?_⟩
  · cases o <;>
      simp [async_update_dns, init_manager, async_call_casadns, py_or, truthy]
  · cases o <;>
      simp [async_update_dns, init_manager, async_call_casadns, py_or, truthy]
  · cases o <;>
      simp [async_update_dns, init_manager, async_call_casadns, py_or, truthy]
  · simp +decide [has_param, build_casadns_query, truthy]
  · simp +decide [has_param, build_casadns_query, truthy]

end CasaDNS
